import Mathlib

/-!
Verification of the ollama-copilot-fixer pipeline: a shallow embedding of the
shard detection, fingerprinting, merge caching, architecture classification,
Modelfile generation and source parsing code, together with theorems settling
the specification's claims about them.

Conventions of the embedding:
* Python strings are Lean `String`, bytes are `List Nat` (each < 256).
* `hashlib.sha256` is modelled by a full SHA-256 implementation over byte
  lists (FIPS 180-4), validated below against the standard test vectors.
* Filesystem state, where needed, is passed explicitly: a directory is the
  list of file names it contains, a file store is a list of (path, size)
  pairs, and the external merge tool's observable behaviour is a record of
  exit code, captured output and the state it leaves at the destination.
* Fallible Python code (exceptions) returns `Option`/`Except`.
-/

namespace OllamaCopilotFixer

set_option maxRecDepth 16384

/-! ### String and char helpers -/

/-- ASCII lowercase of one char; models Python `str.lower` on the ASCII
range, which is the only range exercised by the code's patterns. -/
def lowerChar (c : Char) : Char :=
  if 'A' ≤ c ∧ c ≤ 'Z' then Char.ofNat (c.toNat + 32) else c

/-- ASCII lowercase of a string. -/
def asciiLower (s : String) : String := ⟨s.data.map lowerChar⟩

theorem string_data_append (s t : String) : (s ++ t).data = s.data ++ t.data := by
  cases s; cases t; rfl

/-- Boolean string-prefix test, at the char-list level. -/
def strHasPre (pre s : String) : Bool := pre.data.isPrefixOf s.data

theorem isPrefixOf_self_append (l t : List Char) : l.isPrefixOf (l ++ t) = true := by
  induction l with
  | nil => simp [List.isPrefixOf]
  | cons a as ih => simp [List.isPrefixOf, ih]

/-! ### SHA-256 over byte lists (model of `hashlib.sha256`) -/

def m32 : Nat := 4294967296

def rotr32 (x n : Nat) : Nat := ((x >>> n) + ((x <<< (32 - n)) % m32)) % m32

def not32 (x : Nat) : Nat := x ^^^ (m32 - 1)

def xor3 (a b c : Nat) : Nat := a ^^^ b ^^^ c

def sumA (x : Nat) : Nat := xor3 (rotr32 x 2) (rotr32 x 13) (rotr32 x 22)

def sumE (x : Nat) : Nat := xor3 (rotr32 x 6) (rotr32 x 11) (rotr32 x 25)

def sigW0 (x : Nat) : Nat := xor3 (rotr32 x 7) (rotr32 x 18) (x >>> 3)

def sigW1 (x : Nat) : Nat := xor3 (rotr32 x 17) (rotr32 x 19) (x >>> 10)

def sha256K : List Nat :=
  [1116352408, 1899447441, 3049323471, 3921009573, 961987163,
   1508970993, 2453635748, 2870763221, 3624381080, 310598401,
   607225278, 1426881987, 1925078388, 2162078206, 2614888103,
   3248222580, 3835390401, 4022224774, 264347078, 604807628,
   770255983, 1249150122, 1555081692, 1996064986, 2554220882,
   2821834349, 2952996808, 3210313671, 3336571891, 3584528711,
   113926993, 338241895, 666307205, 773529912, 1294757372,
   1396182291, 1695183700, 1986661051, 2177026350, 2456956037,
   2730485921, 2820302411, 3259730800, 3345764771, 3516065817,
   3600352804, 4094571909, 275423344, 430227734, 506948616,
   659060556, 883997877, 958139571, 1322822218, 1537002063,
   1747873779, 1955562222, 2024104815, 2227730452, 2361852424,
   2428436474, 2756734187, 3204031479, 3329325298]

def sha256H0 : List Nat :=
  [1779033703, 3144134277, 1013904242, 2773480762, 1359893119,
   2600822924, 528734635, 1541459225]

/-- `k` big-endian bytes of `n`. -/
def beBytes (k n : Nat) : List Nat :=
  (List.range k).map (fun i => (n >>> (8 * (k - 1 - i))) % 256)

def toWords : List Nat → List Nat
  | b0 :: b1 :: b2 :: b3 :: rest =>
    ((b0 <<< 24) ||| (b1 <<< 16) ||| (b2 <<< 8) ||| b3) :: toWords rest
  | _ => []

def extendW (w : List Nat) : Nat → List Nat
  | 0 => w
  | n + 1 =>
    let w' := extendW w n
    let len := w'.length
    w' ++ [(sigW1 (w'.getD (len - 2) 0) + w'.getD (len - 7) 0 +
            sigW0 (w'.getD (len - 15) 0) + w'.getD (len - 16) 0) % m32]

def rounds (st : List Nat) (pairs : List (Nat × Nat)) : List Nat :=
  pairs.foldl
    (fun s wk =>
      match s with
      | [a, b, c, d, e, f, g, h] =>
        let t1 := (h + sumE e + ((e &&& f) ^^^ (not32 e &&& g)) + wk.2 + wk.1) % m32
        let t2 := (sumA a + ((a &&& b) ^^^ (a &&& c) ^^^ (b &&& c))) % m32
        [(t1 + t2) % m32, a, b, c, (d + t1) % m32, e, f, g]
      | s => s)
    st

def sha256Blocks : Nat → List Nat → List (List Nat)
  | 0, _ => []
  | _, [] => []
  | fuel + 1, l => l.take 64 :: sha256Blocks fuel (l.drop 64)

def sha256Core (blocks : List (List Nat)) : List Nat :=
  blocks.foldl
    (fun H block =>
      let w := extendW (toWords block) 48
      let st := rounds H (w.zip sha256K)
      (H.zip st).map (fun p => (p.1 + p.2) % m32))
    sha256H0

def hexChar (d : Nat) : Char := if d < 10 then Char.ofNat (48 + d) else Char.ofNat (87 + d)

def byteHex (b : Nat) : List Char := [hexChar (b / 16), hexChar (b % 16)]

/-- SHA-256 hex digest of a byte string; models `hashlib.sha256(...).hexdigest()`. -/
def sha256hex (msg : List Nat) : String :=
  let padded := msg ++ [128] ++ List.replicate ((119 - msg.length % 64) % 64) 0 ++
    beBytes 8 (8 * msg.length)
  let H := sha256Core (sha256Blocks padded.length padded)
  ⟨((H.map (beBytes 4)).flatten.map byteHex).flatten⟩

/-- FIPS 180-4 test vector: digest of "abc". Validates the SHA-256 model. -/
theorem sha256hex_abc :
    sha256hex [97, 98, 99] =
      "ba7816bf8f01cfea414140de5dae2223b00361a396177a9cb410ff61f20015ad" := by decide

/-- FIPS 180-4 test vector: digest of the empty message. -/
theorem sha256hex_empty :
    sha256hex [] =
      "e3b0c44298fc1c149afbf4c8996fb92427ae41e4649b934ca495991b7852b855" := by decide

/-- UTF-8 encoding of one scalar value; models Python `str.encode("utf-8")`
per char ("ignore" never fires: Lean `Char` excludes surrogates). -/
def utf8Bytes (c : Char) : List Nat :=
  let n := c.toNat
  if n < 128 then [n]
  else if n < 2048 then [192 ||| (n >>> 6), 128 ||| (n &&& 63)]
  else if n < 65536 then
    [224 ||| (n >>> 12), 128 ||| ((n >>> 6) &&& 63), 128 ||| (n &&& 63)]
  else
    [240 ||| (n >>> 18), 128 ||| ((n >>> 12) &&& 63), 128 ||| ((n >>> 6) &&& 63),
     128 ||| (n &&& 63)]

def strUtf8 (s : String) : List Nat := (s.data.map utf8Bytes).flatten

/-! ### gguf.py: shards and fingerprint -/

/-- One member of a shard set as `shards_fingerprint` observes it: the file
name, and the `st_size` / integer-truncated `st_mtime` from `Path.stat()`.
`statOk = false` models the `except` branch where `stat()` raises. -/
structure Shard where
  name : String
  size : Nat
  mtime : Int
  statOk : Bool
deriving DecidableEq, Repr

/-- Bytes one shard feeds into the running digest (gguf.py lines 58-67):
name, decimal size, integer mtime and a separator on success; name and the
separator alone when `stat` fails. -/
def shardBytes (p : Shard) : List Nat :=
  if p.statOk then
    strUtf8 p.name ++ strUtf8 (toString p.size) ++ strUtf8 (toString p.mtime) ++ [10]
  else
    strUtf8 p.name ++ [10]

/-- gguf.py `shards_fingerprint`: sha256 over the members' metadata bytes, in
the order the list supplies them, truncated to 16 hex chars. -/
def shards_fingerprint (shards : List Shard) : String :=
  (sha256hex (shards.map shardBytes).flatten).take 16

/-- Name-based order on shards, used by `shard_files`' final
`sorted(shards, key=lambda p: p.name)` (gguf.py line 49). -/
def shardLe (a b : Shard) : Prop := a.name ≤ b.name

instance : IsTotal Shard shardLe := ⟨fun a b => le_total a.name b.name⟩

instance : IsTrans Shard shardLe := ⟨fun _ _ _ h1 h2 => le_trans h1 h2⟩

instance : DecidableRel shardLe := fun a b => inferInstanceAs (Decidable (a.name ≤ b.name))

/-- Model of `sorted(shards, key=lambda p: p.name)` (gguf.py line 49: the
ordering `shard_files` imposes before the fingerprint is taken). Filenames
within one directory are distinct, so any name-sorted order is the same. -/
def sortByName (l : List Shard) : List Shard := List.insertionSort shardLe l

/-! ### gguf.py: shard-name patterns and `is_sharded_model`

The three regexes of `_SHARD_PATTERNS` are anchored suffix patterns, so they
are modelled by matchers over the reversed char list; `dropPreCI` compares
case-insensitively, mirroring `re.IGNORECASE`. -/

def isDigitChar (c : Char) : Bool := '0' ≤ c && c ≤ '9'

/-- Consume a literal (given lowercase) case-insensitively. -/
def dropPreCI : List Char → List Char → Option (List Char)
  | [], l => some l
  | _, [] => none
  | p :: ps, c :: cs => if lowerChar c = p then dropPreCI ps cs else none

/-- Consume exactly `k` digits. -/
def dropDigitsExact : Nat → List Char → Option (List Char)
  | 0, l => some l
  | _ + 1, [] => none
  | k + 1, c :: cs => if isDigitChar c then dropDigitsExact k cs else none

/-- Consume one or more digits, greedily. -/
def dropDigitsGreedy : List Char → Option (List Char)
  | [] => none
  | c :: cs => if isDigitChar c then some (cs.dropWhile isDigitChar) else none

def revChars (s : String) : List Char := s.data.reverse

/-- Reversed-suffix matcher for `-\d{5}-of-\d{5}\.gguf$` (IGNORECASE);
returns the remaining (reversed) chars before the suffix. -/
def sufIocRev (r : List Char) : Option (List Char) :=
  (dropPreCI "fugg.".data r).bind fun r1 =>
  (dropDigitsExact 5 r1).bind fun r2 =>
  (dropPreCI "-fo-".data r2).bind fun r3 =>
  (dropDigitsExact 5 r3).bind fun r4 =>
  dropPreCI "-".data r4

/-- Reversed-suffix matcher for `-part-\d+\.gguf$` (IGNORECASE). -/
def sufPartDashRev (r : List Char) : Option (List Char) :=
  (dropPreCI "fugg.".data r).bind fun r1 =>
  (dropDigitsGreedy r1).bind fun r2 =>
  dropPreCI "-trap-".data r2

/-- Reversed-suffix matcher for `\.part\d+\.gguf$` (IGNORECASE). -/
def sufPartDotRev (r : List Char) : Option (List Char) :=
  (dropPreCI "fugg.".data r).bind fun r1 =>
  (dropDigitsGreedy r1).bind fun r2 =>
  dropPreCI "trap.".data r2

/-- `any(p.search(name) for p in _SHARD_PATTERNS)` (gguf.py line 18). -/
def matchesShardPattern (name : String) : Bool :=
  (sufIocRev (revChars name)).isSome || (sufPartDashRev (revChars name)).isSome ||
    (sufPartDotRev (revChars name)).isSome

/-- One `re.sub(pattern, "", name)` step for an anchored suffix pattern:
remove the suffix when it matches, otherwise keep the name. -/
def stripVia (f : List Char → Option (List Char)) (name : String) : String :=
  match f (revChars name) with
  | some r => ⟨r.reverse⟩
  | none => name

/-- The base-name computation of gguf.py lines 23-25: strip the three shard
suffix conventions in order. -/
def shardBase (name : String) : String :=
  stripVia sufPartDotRev (stripVia sufPartDashRev (stripVia sufIocRev name))

/-- Positional matcher for `-\d{5}-of-\d{5}` (IGNORECASE). -/
def posIoc (l : List Char) : Bool :=
  ((dropPreCI "-".data l).bind fun r1 =>
   (dropDigitsExact 5 r1).bind fun r2 =>
   (dropPreCI "-of-".data r2).bind fun r3 =>
   dropDigitsExact 5 r3).isSome

/-- Positional matcher for `part-?\d+` (IGNORECASE): "part", an optional
dash, then at least one digit. -/
def posPart (l : List Char) : Bool :=
  ((dropPreCI "part".data l).bind fun r1 =>
    dropDigitsGreedy (match r1 with | '-' :: t => t | t => t)).isSome

/-- `re.search`: try a positional matcher at every position. -/
def scanAny (p : List Char → Bool) : List Char → Bool
  | [] => p []
  | c :: rest => p (c :: rest) || scanAny p rest

/-- The sibling filter `re.search(r"-\d{5}-of-\d{5}|part-?\d+", name, IGNORECASE)`
(gguf.py line 30). -/
def relatedFilter (fname : String) : Bool :=
  scanAny (fun l => posIoc l || posPart l) fname.data

/-- `directory.glob(f"{base}*.gguf")` membership for one candidate name:
the name is `base`, then anything, then `.gguf` (the base is treated as a
literal; shard bases contain no glob metacharacters). -/
def globMatch (base fname : String) : Bool :=
  base.data.isPrefixOf fname.data && ".gguf".data.isSuffixOf fname.data &&
    decide (base.data.length + 5 ≤ fname.data.length)

/-- gguf.py `is_sharded_model`, with the file's directory passed explicitly
as the list of names the glob can see: a name matching a shard pattern is
split outright; otherwise two or more qualifying glob siblings mark it split. -/
def is_sharded_model (name : String) (dirListing : List String) : Bool :=
  if matchesShardPattern name then true
  else
    let base := shardBase name
    let related := dirListing.filter (fun f => globMatch base f && relatedFilter f)
    decide (1 < related.length)

/-! ### gguf.py: `detect_architecture`

`content` stands for the decoded 16384-byte prefix (`chunk.decode("ascii",
errors="ignore")`; the empty string models the `except` branch), `name` for
`Path(file_path).name`. `.` in the regexes does not match a newline, hence
the newline-bounded scans. -/

/-- Scan for `3\.[0-9]` with no newline before it (the `.*` of
`llama.*3\.[0-9]` cannot cross a newline). -/
def seek3DotDigit : List Char → Bool
  | [] => false
  | c :: rest =>
    if c = '\n' then false
    else
      (match rest with
       | d :: e :: _ => c = '3' && d = '.' && isDigitChar e
       | _ => false) || seek3DotDigit rest

/-- Scan for a char with no newline before it (for `.*2` / `.*3` tails). -/
def seekCharNoNl (t : Char) : List Char → Bool
  | [] => false
  | c :: rest => if c = '\n' then false else c = t || seekCharNoNl t rest

/-- `re.search` for `lit` followed (with `.*`, same line) by a tail matcher. -/
def searchThen (lit : List Char) (k : List Char → Bool) : List Char → Bool
  | [] => false
  | c :: rest =>
    (lit.isPrefixOf (c :: rest) && k ((c :: rest).drop lit.length)) || searchThen lit k rest

/-- `re.search` for a literal substring. -/
def containsLit (lit : String) (s : String) : Bool :=
  searchThen lit.data (fun _ => true) s.data

/-- `re.search(r"llama.*3\.[0-9]|llama3|llama-3", c)`. -/
def reLlama3Content (c : String) : Bool :=
  searchThen "llama".data seek3DotDigit c.data || containsLit "llama3" c ||
    containsLit "llama-3" c

/-- `re.search(r"mistral|mixtral", s)`. -/
def reMistral (s : String) : Bool := containsLit "mistral" s || containsLit "mixtral" s

/-- `re.search(r"phi-3|phi3|phi-4|phi4", c)`. -/
def rePhiContent (c : String) : Bool :=
  containsLit "phi-3" c || containsLit "phi3" c || containsLit "phi-4" c ||
    containsLit "phi4" c

/-- `re.search(r"gemma.*2|gemma-2", c)`. -/
def reGemmaContent (c : String) : Bool :=
  searchThen "gemma".data (seekCharNoNl '2') c.data || containsLit "gemma-2" c

/-- `re.search(r"qwen.*2|qwen-2", c)`. -/
def reQwenContent (c : String) : Bool :=
  searchThen "qwen".data (seekCharNoNl '2') c.data || containsLit "qwen-2" c

/-- `re.search(r"llama.*3", f)`. -/
def reLlamaFile (f : String) : Bool := searchThen "llama".data (seekCharNoNl '3') f.data

/-- gguf.py `detect_architecture` (lines 96-130), on the decoded content
prefix and the file name (both lowercased on entry, as in the source). -/
def detect_architecture (content name : String) : String :=
  if reLlama3Content (asciiLower content) then "llama3"
  else if reMistral (asciiLower content) then "mistral"
  else if rePhiContent (asciiLower content) then "phi3"
  else if reGemmaContent (asciiLower content) then "gemma2"
  else if reQwenContent (asciiLower content) then "qwen"
  else if containsLit "nemotron" (asciiLower name) then "nemotron"
  else if reLlamaFile (asciiLower name) then "llama3"
  else if reMistral (asciiLower name) then "mistral"
  else if containsLit "phi" (asciiLower name) then "phi3"
  else if containsLit "gemma" (asciiLower name) then "gemma2"
  else if containsLit "qwen" (asciiLower name) then "qwen"
  else "llama3"

/-- The content pass of the classifier as a first-match function (the if
chain of gguf.py lines 105-114). -/
def contentMatchArch (c : String) : Option String :=
  if reLlama3Content c then some "llama3"
  else if reMistral c then some "mistral"
  else if rePhiContent c then some "phi3"
  else if reGemmaContent c then some "gemma2"
  else if reQwenContent c then some "qwen"
  else none

/-- The filename pass of the classifier as a first-match function (the if
chain of gguf.py lines 117-128). -/
def filenameMatchArch (f : String) : Option String :=
  if containsLit "nemotron" f then some "nemotron"
  else if reLlamaFile f then some "llama3"
  else if reMistral f then some "mistral"
  else if containsLit "phi" f then some "phi3"
  else if containsLit "gemma" f then some "gemma2"
  else if containsLit "qwen" f then some "qwen"
  else none


/-! ### modelfile.py: template registry and Modelfile generation -/

structure ModelTemplate where
  template : String
  stop : List String
  renderer : Option String := none
  parser : Option String := none
deriving DecidableEq, Repr

def _SYSTEM_MESSAGE : String :=
  "You are a helpful AI assistant with tool calling capabilities. You can help with code, answer questions, and use tools when needed."

def _TOOLS_PREAMBLE : String :=
  "You have access to the following tools. Use them when helpful. When you call a tool, call it using the tool calling mechanism (not as plain text in the chat content).\n"

def nemotronTemplate : ModelTemplate where
  template :=
    "\x7b\x7b .Prompt \x7d\x7d"
  stop := []
  renderer := some "nemotron-3-nano"
  parser := some "nemotron-3-nano"

def llama3Template : ModelTemplate where
  template :=
    "\x7b\x7b if .Messages \x7d\x7d\n\x7b\x7b- if or .System .Tools \x7d\x7d<|start_header_id|>system<|end_header_id|>\n\x7b\x7b- if .System \x7d\x7d\n\n\x7b\x7b .System \x7d\x7d\n\x7b\x7b- end \x7d\x7d\n\x7b\x7b- if .Tools \x7d\x7d\n\nYou have access to the following tools. Use them when helpful. When you call a tool, call it using the tool calling mechanism (not as plain text in the chat content).\n\x7b\x7b .Tools \x7d\x7d\n\x7b\x7b- end \x7d\x7d<|eot_id|>\n\x7b\x7b- end \x7d\x7d\n\x7b\x7b- range .Messages \x7d\x7d\n<|start_header_id|>\x7b\x7b .Role \x7d\x7d<|end_header_id|>\n\n\x7b\x7b .Content \x7d\x7d<|eot_id|>\n\x7b\x7b- end \x7d\x7d\n<|start_header_id|>assistant<|end_header_id|>\n\n\x7b\x7b .Response \x7d\x7d<|eot_id|>\n\x7b\x7b- else \x7d\x7d\n<|start_header_id|>system<|end_header_id|>\n\n\x7b\x7b .System \x7d\x7d<|eot_id|>\n<|start_header_id|>user<|end_header_id|>\n\n\x7b\x7b .Prompt \x7d\x7d<|eot_id|>\n<|start_header_id|>assistant<|end_header_id|>\n\n\x7b\x7b .Response \x7d\x7d<|eot_id|>\x7b\x7b- end \x7d\x7d"
  stop := ["<|start_header_id|>", "<|end_header_id|>", "<|eot_id|>"]
  renderer := none
  parser := none

def mistralTemplate : ModelTemplate where
  template :=
    "\x7b\x7b if .Messages \x7d\x7d\n\x7b\x7b- if or .System .Tools \x7d\x7d[INST]\n\x7b\x7b- if .System \x7d\x7d\x7b\x7b .System \x7d\x7d\n\x7b\x7b- end \x7d\x7d\n\x7b\x7b- if .Tools \x7d\x7d\n\nYou have access to the following tools. Use them when helpful. When you call a tool, call it using the tool calling mechanism (not as plain text in the chat content).\n\x7b\x7b .Tools \x7d\x7d\n\x7b\x7b- end \x7d\x7d[/INST]\n\x7b\x7b- end \x7d\x7d\n\x7b\x7b- range .Messages \x7d\x7d\n\x7b\x7b- if eq .Role \"user\" \x7d\x7d[INST] \x7b\x7b .Content \x7d\x7d [/INST]\n\x7b\x7b- else if eq .Role \"assistant\" \x7d\x7d\x7b\x7b .Content \x7d\x7d</s>\n\x7b\x7b- end \x7d\x7d\n\x7b\x7b- end \x7d\x7d\n\x7b\x7b .Response \x7d\x7d</s>\n\x7b\x7b- else \x7d\x7d[INST] \x7b\x7b if .System \x7d\x7d\x7b\x7b .System \x7d\x7d\n\n\x7b\x7b end \x7d\x7d\x7b\x7b .Prompt \x7d\x7d [/INST]\n\x7b\x7b .Response \x7d\x7d</s>\n\x7b\x7b- end \x7d\x7d"
  stop := ["</s>", "[INST]", "[/INST]"]
  renderer := none
  parser := none

def phi3Template : ModelTemplate where
  template :=
    "\x7b\x7b if .Messages \x7d\x7d\n\x7b\x7b- if or .System .Tools \x7d\x7d<|system|>\n\x7b\x7b- if .System \x7d\x7d\x7b\x7b .System \x7d\x7d\n\x7b\x7b- end \x7d\x7d\n\x7b\x7b- if .Tools \x7d\x7d\n\nYou have access to the following tools. Use them when helpful. When you call a tool, call it using the tool calling mechanism (not as plain text in the chat content).\n\x7b\x7b .Tools \x7d\x7d\n\x7b\x7b- end \x7d\x7d<|end|>\n\x7b\x7b- end \x7d\x7d\n\x7b\x7b- range .Messages \x7d\x7d\n<|\x7b\x7b .Role \x7d\x7d|>\n\x7b\x7b .Content \x7d\x7d<|end|>\n\x7b\x7b- end \x7d\x7d\n<|assistant|>\n\x7b\x7b .Response \x7d\x7d<|end|>\n\x7b\x7b- else \x7d\x7d<|system|>\n\x7b\x7b .System \x7d\x7d<|end|>\n<|user|>\n\x7b\x7b .Prompt \x7d\x7d<|end|>\n<|assistant|>\n\x7b\x7b .Response \x7d\x7d<|end|>\n\x7b\x7b- end \x7d\x7d"
  stop := ["<|end|>", "<|system|>", "<|user|>", "<|assistant|>"]
  renderer := none
  parser := none

def gemma2Template : ModelTemplate where
  template :=
    "\x7b\x7b if .Messages \x7d\x7d\n\x7b\x7b- if or .System .Tools \x7d\x7d<start_of_turn>model\n\x7b\x7b- if .System \x7d\x7d\x7b\x7b .System \x7d\x7d\n\x7b\x7b- end \x7d\x7d\n\x7b\x7b- if .Tools \x7d\x7d\n\nYou have access to the following tools. Use them when helpful. When you call a tool, call it using the tool calling mechanism (not as plain text in the chat content).\n\x7b\x7b .Tools \x7d\x7d\n\x7b\x7b- end \x7d\x7d<end_of_turn>\n\x7b\x7b- end \x7d\x7d\n\x7b\x7b- range .Messages \x7d\x7d\n<start_of_turn>\x7b\x7b .Role \x7d\x7d\n\x7b\x7b .Content \x7d\x7d<end_of_turn>\n\x7b\x7b- end \x7d\x7d\n<start_of_turn>model\n\x7b\x7b .Response \x7d\x7d<end_of_turn>\n\x7b\x7b- else \x7d\x7d<start_of_turn>system\n\x7b\x7b .System \x7d\x7d<end_of_turn>\n<start_of_turn>user\n\x7b\x7b .Prompt \x7d\x7d<end_of_turn>\n<start_of_turn>model\n\x7b\x7b .Response \x7d\x7d<end_of_turn>\n\x7b\x7b- end \x7d\x7d"
  stop := ["<end_of_turn>", "<start_of_turn>"]
  renderer := none
  parser := none

def qwenTemplate : ModelTemplate where
  template :=
    "\x7b\x7b if .Messages \x7d\x7d\n\x7b\x7b- if or .System .Tools \x7d\x7d<|im_start|>system\n\x7b\x7b- if .System \x7d\x7d\n\x7b\x7b .System \x7d\x7d\n\x7b\x7b- end \x7d\x7d\n\x7b\x7b- if .Tools \x7d\x7d\n\nYou have access to the following tools. Use them when helpful. When you call a tool, call it using the tool calling mechanism (not as plain text in the chat content).\n\x7b\x7b .Tools \x7d\x7d\n\x7b\x7b- end \x7d\x7d<|im_end|>\n\x7b\x7b- end \x7d\x7d\n\x7b\x7b- range .Messages \x7d\x7d\n<|im_start|>\x7b\x7b .Role \x7d\x7d\n\x7b\x7b .Content \x7d\x7d<|im_end|>\n\x7b\x7b- end \x7d\x7d\n<|im_start|>assistant\n\x7b\x7b .Response \x7d\x7d<|im_end|>\n\x7b\x7b- else \x7d\x7d<|im_start|>system\n\x7b\x7b .System \x7d\x7d<|im_end|>\n<|im_start|>user\n\x7b\x7b .Prompt \x7d\x7d<|im_end|>\n<|im_start|>assistant\n\x7b\x7b .Response \x7d\x7d<|im_end|>\n\x7b\x7b- end \x7d\x7d"
  stop := ["<|im_start|>", "<|im_end|>"]
  renderer := none
  parser := none

/-- The `_TEMPLATES` dict of modelfile.py, as an association list in the
source's insertion order. -/
def _TEMPLATES : List (String × ModelTemplate) :=
  [("nemotron", nemotronTemplate), ("llama3", llama3Template), ("mistral", mistralTemplate),
   ("phi3", phi3Template), ("gemma2", gemma2Template), ("qwen", qwenTemplate)]

/-- Code-point lexicographic comparison of strings, as Python `sorted` uses
on `str` keys (executable). -/
def charsLe : List Char → List Char → Bool
  | [], _ => true
  | _ :: _, [] => false
  | a :: as, b :: bs => if a = b then charsLe as bs else decide (a.toNat < b.toNat)

def strLeB (a b : String) : Bool := charsLe a.data b.data

/-- modelfile.py `supported_architectures`: `sorted(_TEMPLATES.keys())`. -/
def supported_architectures : List String :=
  List.insertionSort (fun a b => strLeB a b = true) (_TEMPLATES.map Prod.fst)

/-- The stop-token accumulation of modelfile.py lines 192-196: start from the
family defaults, then append each extra token not already present. `none`
and the empty list both model a falsy `extra_stop`. -/
def stopList (mt : ModelTemplate) (extra : Option (List String)) : List String :=
  match extra with
  | none => mt.stop
  | some l =>
    if l = [] then mt.stop
    else l.foldl (fun acc s => if s ∈ acc then acc else acc ++ [s]) mt.stop

def stopLine (seq : String) : String := "PARAMETER stop \"" ++ seq ++ "\""

def systemLine (msg : String) : String := "SYSTEM \"\"\"" ++ msg ++ "\"\"\""

def templateLine (t : String) : String := "TEMPLATE \"\"\"" ++ t ++ "\"\"\""

def numPredictLine : String := "PARAMETER num_predict -1"

def numCtxLine (n : Int) : String := "PARAMETER num_ctx " ++ toString n

/-- Python `system_message or _SYSTEM_MESSAGE`: `None` and the empty string
are falsy and fall back to the default. -/
def pyOrDefault (sys : Option String) : String :=
  match sys with
  | some s => if s = "" then _SYSTEM_MESSAGE else s
  | none => _SYSTEM_MESSAGE

/-- Python `list.index(x)`: index of the first occurrence (the call sites
guarantee presence; an absent element maps to the length). -/
def pyIndex (l : List String) (x : String) : Nat :=
  match l with
  | [] => 0
  | a :: rest => if a = x then 0 else pyIndex rest x + 1

/-- Python `list.insert(i, x)`. -/
def pyInsert (l : List String) (i : Nat) (x : String) : List String :=
  l.take i ++ x :: l.drop i

/-- The part of the `out` list built before the stop-sequence lines
(modelfile.py lines 199-219). -/
def outHead (path arch : String) (mt : ModelTemplate) : List String :=
  ["# Auto-generated Modelfile with Tool capability for GitHub Copilot",
   "# Architecture: " ++ arch,
   "",
   "FROM " ++ path]
  ++ (match mt.renderer with | some r => ["RENDERER " ++ r] | none => [])
  ++ (match mt.parser with | some p => ["PARSER " ++ p] | none => [])
  ++ ["", "# Template", templateLine mt.template, "", "# Stop sequences"]

/-- The part of the `out` list built after the stop-sequence lines: the model
parameters (lines 224-230) and, for every family except the template-inert
nemotron, the system-message block (lines 232-239). -/
def outTail (arch temp : String) (sys : Option String) : List String :=
  ["", "# Model parameters", "PARAMETER temperature " ++ temp, numPredictLine, ""]
  ++ (if arch ≠ "nemotron" then ["# System message", systemLine (pyOrDefault sys), ""] else [])

/-- The `out` list of modelfile.py lines 199-239 (after the system-message
block is appended, before any `num_ctx` insertion). `temp` stands for the
decimal rendering of the float `temperature`. -/
def outBase (path arch : String) (mt : ModelTemplate) (temp : String) (stop : List String)
    (sys : Option String) : List String :=
  outHead path arch mt ++ stop.map stopLine ++ outTail arch temp sys

/-- The error taxonomy of `generate_modelfile` (both are `ValueError` in the
source; the spec names them UnsupportedArchitecture and InvalidConfiguration). -/
inductive GenError where
  | unsupportedArchitecture (msg : String)
  | invalidConfiguration (msg : String)
deriving DecidableEq, Repr

/-- modelfile.py `generate_modelfile` (lines 177-246), producing the list of
`out` entries: unregistered architecture fails first; then the stop list and
the body are built; a present non-positive `context_length` fails last, and a
positive one is inserted before the first `num_predict` line. -/
def generate_modelfileLines (path arch : String) (ctx : Option Int) (temp : String)
    (extra : Option (List String)) (sys : Option String) : Except GenError (List String) :=
  match List.lookup arch _TEMPLATES with
  | none =>
    .error (.unsupportedArchitecture ("Unsupported architecture: " ++ arch ++ ". Supported: " ++
      String.intercalate ", " supported_architectures))
  | some mt =>
    let stop := stopList mt extra
    let base := outBase path arch mt temp stop sys
    match ctx with
    | none => .ok base
    | some n =>
      if n ≤ 0 then .error (.invalidConfiguration "context_length must be a positive integer")
      else .ok (pyInsert base (pyIndex base numPredictLine) (numCtxLine n))

/-- `"\n".join(out)`: the returned Modelfile text. -/
def generate_modelfile (path arch : String) (ctx : Option Int) (temp : String)
    (extra : Option (List String)) (sys : Option String) : Except GenError String :=
  (generate_modelfileLines path arch ctx temp extra sys).map (String.intercalate "\n")

/-- The line list of a successful generation (`[]` on error); evaluation
helper for stating properties of the emitted configuration. -/
def okLines (e : Except GenError (List String)) : List String :=
  match e with
  | .ok l => l
  | .error _ => []

/-! ### gguf.py: `merge_sharded_model` -/

/-- Failure taxonomy of the merge step (all `RuntimeError` in the source; the
spec's names): fewer than two shards, non-zero tool exit, missing output. -/
inductive MergeError where
  | shardSetIncomplete (msg : String)
  | mergeFailed (msg : String)
  | outputNotFound (msg : String)
deriving DecidableEq, Repr

/-- Observable outcome of the `subprocess.run` of the external merge tool:
exit code, captured interleaved stdout/stderr, and what it left at the
destination path. -/
structure ToolRun where
  exitCode : Int
  output : String
  destExists : Bool
  destSize : Nat
deriving DecidableEq, Repr

/-- gguf.py `merge_sharded_model` (lines 71-93): fewer than two related
shards is a hard error; a non-zero exit fails carrying the captured output;
a missing output file fails with a fixed diagnostic (the size of the output
file is not inspected); otherwise the destination path is returned. -/
def merge_sharded_model (shards : List String) (tool : ToolRun) (output_path : String) :
    Except MergeError String :=
  if shards.length < 2 then
    .error (.shardSetIncomplete "Shard merge requested but related shards were not found.")
  else if tool.exitCode ≠ 0 then
    .error (.mergeFailed ("Merge failed (exit " ++ toString tool.exitCode ++ ").\n" ++ tool.output))
  else if tool.destExists = false then
    .error (.outputNotFound "Merge completed but output file not found.")
  else
    .ok output_path

/-! ### cli.py: the merge/cache stage of `main` -/

/-- config.py line 94: `keep_merged = bool(data.get("keep_merged", False))`
with no configured value. -/
def keepMergedDefault : Bool := false

/-- The fingerprint-derived cache path `config.merged_dir / f"merged_{fp}.gguf"`
(cli.py line 201). -/
def mergedCachePath (mergedDir fp : String) : String :=
  mergedDir ++ "/merged_" ++ fp ++ ".gguf"

def fsLookup (fs : List (String × Nat)) (p : String) : Option Nat := List.lookup p fs

def fsWrite (fs : List (String × Nat)) (p : String) (v : Nat) : List (String × Nat) :=
  (p, v) :: fs.filter (fun e => !(e.1 == p))

def fsErase (fs : List (String × Nat)) (p : String) : List (String × Nat) :=
  fs.filter (fun e => !(e.1 == p))

/-- Result of one run of the merge/cache stage: the file store afterwards,
the artifact path used downstream, and whether the external merge tool ran. -/
structure PipelineRun where
  fs : List (String × Nat)
  final_gguf : String
  mergeInvoked : Bool
deriving DecidableEq, Repr

/-- cli.py lines 199-210 and 282-289 for a sharded model, one process
invocation, merge tool succeeding by writing `toolWriteSize` bytes: reuse the
cached artifact when it exists non-empty; otherwise merge to the cache path
(`merged_created = True`) and, at end of run, delete the newly created
artifact unless `keep_merged` is configured. -/
def cacheHit (fs : List (String × Nat)) (merged : String) : Bool :=
  match fsLookup fs merged with
  | some sz => decide (0 < sz)
  | none => false

def runMergeStage (keepMerged : Bool) (toolWriteSize : Nat) (mergedDir fp : String)
    (fs : List (String × Nat)) : PipelineRun :=
  if cacheHit fs (mergedCachePath mergedDir fp) then
    ⟨fs, mergedCachePath mergedDir fp, false⟩
  else
    ⟨if keepMerged then fsWrite fs (mergedCachePath mergedDir fp) toolWriteSize
      else fsErase (fsWrite fs (mergedCachePath mergedDir fp) toolWriteSize)
        (mergedCachePath mergedDir fp),
     mergedCachePath mergedDir fp, true⟩

/-! ### source.py: `parse_model_source` -/

structure ParsedSource where
  is_hf : Bool
  repo_id : Option String
  quant_suffix : Option String
  local_path : Option String
deriving DecidableEq, Repr

/-- Python default whitespace (`str.strip` / `str.split` / `\s`), ASCII range. -/
def isPySpace (c : Char) : Bool :=
  c = ' ' || c = '\t' || c = '\n' || c = '\r' || c = '\x0b' || c = '\x0c'

/-- `str.strip()`. -/
def pyStrip (s : String) : String :=
  ⟨((s.data.dropWhile isPySpace).reverse.dropWhile isPySpace).reverse⟩

def wordsAux (cur : List Char) : List Char → List (List Char)
  | [] => if cur = [] then [] else [cur.reverse]
  | c :: cs =>
    if isPySpace c then
      if cur = [] then wordsAux [] cs else cur.reverse :: wordsAux [] cs
    else wordsAux (c :: cur) cs

/-- `str.split()` with no arguments: split on whitespace runs, no empties. -/
def pySplit (s : String) : List String := (wordsAux [] s.data).map List.asString

/-- `re.match(r"^\s*ollama\s+(run|pull)\s+(?P<rest>.+)$", s, IGNORECASE)` on an
already-stripped `s`, returning the `rest` group: "ollama", whitespace, "run"
or "pull", whitespace, then a non-empty remainder that `.+` (which cannot
cross a newline) must match up to the end of the string. -/
def matchOllamaRunPull (s : String) : Option String :=
  (dropPreCI "ollama".data s.data).bind fun r1 =>
  (if r1.takeWhile isPySpace = [] then none else some (r1.dropWhile isPySpace)).bind fun r2 =>
  ((dropPreCI "run".data r2).orElse (fun _ => dropPreCI "pull".data r2)).bind fun r3 =>
  (if r3.takeWhile isPySpace = [] then none else some (r3.dropWhile isPySpace)).bind fun rest =>
  if rest = [] || rest.contains '\n' then none else some (List.asString rest)

/-- `_HF_HOST_RE`: `^(?:https?://)?(hf\.co|huggingface\.co)/` (IGNORECASE). -/
def hfHostMatch (token : String) : Bool :=
  let t := asciiLower token
  let t1 :=
    if strHasPre "https://" t then ⟨t.data.drop 8⟩
    else if strHasPre "http://" t then ⟨t.data.drop 7⟩
    else t
  strHasPre "hf.co/" t1 || strHasPre "huggingface.co/" t1

/-- `re.match(r"^https?://", token, IGNORECASE)`. -/
def schemeMatch (token : String) : Bool :=
  strHasPre "https://" (asciiLower token) || strHasPre "http://" (asciiLower token)

def afterSchemeSep : List Char → List Char
  | [] => []
  | ':' :: '/' :: '/' :: rest => rest
  | _ :: rest => afterSchemeSep rest

/-- Modelled from the spec and the Python standard library contract: the
`.path` component `urllib.parse.urlparse` returns for the absolute URLs built
at this call site — everything from the first `/` after `scheme://` up to a
query or fragment delimiter. -/
def urlparsePath (uri : String) : String :=
  let tail := afterSchemeSep uri.data
  ⟨(tail.dropWhile (· ≠ '/')).takeWhile (fun c => c ≠ '?' && c ≠ '#')⟩

/-- source.py `_split_repo_segment`: split off an optional `:QUANT` suffix. -/
def split_repo_segment (seg : String) : String × Option String :=
  if seg.data.contains ':' then
    let name := pyStrip ⟨seg.data.takeWhile (· ≠ ':')⟩
    let suffix := pyStrip ⟨(seg.data.dropWhile (· ≠ ':')).tail⟩
    (name, if suffix = "" then none else some suffix)
  else (seg, none)

/-- `_OWNER_REPO_RE`: `^([^/\s]+)/([^/\s]+)$`. -/
def ownerRepoMatch (token : String) : Option (String × String) :=
  match token.splitOn "/" with
  | [o, r] =>
    if o ≠ "" ∧ r ≠ "" ∧ o.data.all (fun c => !isPySpace c) ∧ r.data.all (fun c => !isPySpace c)
    then some (o, r) else none
  | _ => none

/-- source.py lines 53-61: the owner/repo test, else a local path. -/
def ownerRepoOrLocal (token : String) : ParsedSource :=
  match ownerRepoMatch token with
  | some (o, r) =>
    let (name, suffix) := split_repo_segment r
    ⟨true, some (o ++ "/" ++ name), suffix, none⟩
  | none => ⟨false, none, none, some token⟩

/-- source.py lines 41-61: classify the first token. The hf.co/huggingface.co
branch falls through to the owner/repo test when the URL has fewer than two
path segments, exactly as the missing `return` path does in the source. -/
def classifyToken (token : String) : ParsedSource :=
  if hfHostMatch token then
    let uri := if schemeMatch token then token else "https://" ++ token
    let segments := ((urlparsePath uri).splitOn "/").filter (fun seg => seg ≠ "")
    match segments with
    | owner :: repo_segment :: _ =>
      let (repo_name, suffix) := split_repo_segment repo_segment
      ⟨true, some (owner ++ "/" ++ repo_name), suffix, none⟩
    | _ => ownerRepoOrLocal token
  else ownerRepoOrLocal token

/-- source.py lines 33-36: strip an `ollama run`/`ollama pull` command
wrapper when present. -/
def stripRunPull (s0 : String) : String :=
  match matchOllamaRunPull s0 with
  | some rest => pyStrip rest
  | none => s0

/-- source.py `parse_model_source` (lines 30-61). `none` models the uncaught
`IndexError` that `s.split()[0]` raises on an empty or all-whitespace input. -/
def parse_model_source (model_source : String) : Option ParsedSource :=
  match (pySplit (stripRunPull (pyStrip model_source))).head? with
  | none => none
  | some token => some (classifyToken token)

/-! ### Theorems: fingerprint (C1) -/

/-- Name-sorting is determined by the multiset of shards when names are
distinct, as they are for files of one directory. -/
theorem sortByName_perm_eq (S S' : List Shard) (hperm : S.Perm S')
    (hnames : (S.map Shard.name).Nodup) : sortByName S = sortByName S' := by
  have hnames' : (S'.map Shard.name).Nodup := ((hperm.map Shard.name).nodup_iff).mp hnames
  have hpair : ∀ (T : List Shard), (T.map Shard.name).Nodup →
      (sortByName T).Pairwise (fun a b => shardLe a b ∧ a.name ≠ b.name) := by
    intro T hT
    have h1 : (sortByName T).Pairwise shardLe := List.sorted_insertionSort shardLe T
    have h2 : (sortByName T).Pairwise (fun a b => a.name ≠ b.name) := by
      have hpm : ((sortByName T).map Shard.name).Perm (T.map Shard.name) :=
        (List.perm_insertionSort shardLe T).map Shard.name
      have hnd : ((sortByName T).map Shard.name).Nodup := hpm.nodup_iff.mpr hT
      rwa [List.Nodup, List.pairwise_map] at hnd
    exact h1.and h2
  have hs1 := hpair S hnames
  have hs2 := hpair S' hnames'
  have hp : (sortByName S).Perm (sortByName S') :=
    (List.perm_insertionSort shardLe S).trans
      (hperm.trans (List.perm_insertionSort shardLe S').symm)
  haveI : IsAntisymm Shard (fun a b => shardLe a b ∧ a.name ≠ b.name) :=
    ⟨fun _ _ h1 h2 => (h1.2 (le_antisymm h1.1 h2.1)).elim⟩
  exact List.eq_of_perm_of_sorted hp hs1 hs2

def shardA : Shard := ⟨"model-00001-of-00002.gguf", 111, 1700000000, true⟩

def shardB : Shard := ⟨"model-00002-of-00002.gguf", 222, 1700000001, true⟩

/-- C1, counterexample: `shards_fingerprint` itself is sensitive to member
order — the two orders of the same two-shard set are permutations of each
other yet fingerprint differently, because the digest consumes members in
list order and nothing in the function sorts them. -/
theorem c1_counterexample :
    ([shardB, shardA]).Perm [shardA, shardB] ∧
    shards_fingerprint [shardA, shardB] ≠ shards_fingerprint [shardB, shardA] :=
  ⟨List.Perm.swap shardA shardB [], by decide⟩

/-- C1, amended: the fingerprint is order-insensitive only after the members
are sorted by name, which is the order `shard_files` (the sole producer of
the fingerprinted list) imposes: for shard sets with distinct member names,
any two discovery orders fingerprint identically once name-sorted. -/
theorem c1_amended (S S' : List Shard) (hperm : S.Perm S')
    (hnames : (S.map Shard.name).Nodup) :
    shards_fingerprint (sortByName S) = shards_fingerprint (sortByName S') := by
  rw [sortByName_perm_eq S S' hperm hnames]

/-- C1 amended, witness at a concrete two-shard set. -/
theorem c1_amended_witness :
    ([shardA, shardB]).Perm [shardB, shardA] ∧
    (([shardA, shardB] : List Shard).map Shard.name).Nodup ∧
    shards_fingerprint (sortByName [shardA, shardB]) =
      shards_fingerprint (sortByName [shardB, shardA]) :=
  ⟨List.Perm.swap shardB shardA [], by decide,
   c1_amended [shardA, shardB] [shardB, shardA] (List.Perm.swap shardB shardA []) (by decide)⟩

/-! ### Theorems: merge cache reuse (C2) -/

/-- C2, counterexample: with the default configuration (`keep_merged` is
False), a successful first run deletes the artifact it just merged during
end-of-run cleanup, so an identical second invocation runs the external
merge tool again — two invocations for two runs, not one. -/
theorem c2_counterexample :
    (runMergeStage keepMergedDefault 5 "merged" "abcd1234" []).mergeInvoked = true ∧
    (runMergeStage keepMergedDefault 5 "merged" "abcd1234"
      (runMergeStage keepMergedDefault 5 "merged" "abcd1234" []).fs).mergeInvoked = true ∧
    (runMergeStage keepMergedDefault 5 "merged" "abcd1234" []).fs = [] := by decide

/-- C2, amended: the fingerprint-derived cache path is checked before any
merge, and a pre-existing non-empty artifact is reused without invoking the
tool; the artifact persists across invocations — so that a second identical
run is a pure cache hit returning the identical path — exactly when
`keep_merged` is configured (the default deletes a newly created artifact at
end of run). -/
theorem fsLookup_fsWrite (fs : List (String × Nat)) (p : String) (v : Nat) :
    fsLookup (fsWrite fs p v) p = some v := by
  simp [fsLookup, fsWrite, List.lookup]

/-- A non-empty cached artifact is reused: no merge, state unchanged. -/
theorem runMergeStage_hit (keep : Bool) (sz : Nat) (d fp : String)
    (fs : List (String × Nat)) (s : Nat) (hl : fsLookup fs (mergedCachePath d fp) = some s)
    (hs : 0 < s) : runMergeStage keep sz d fp fs = ⟨fs, mergedCachePath d fp, false⟩ := by
  unfold runMergeStage cacheHit
  rw [hl]
  simp [hs]

/-- No usable cached artifact, `keep_merged` configured: the tool runs and
its output stays at the cache path. -/
theorem runMergeStage_miss_keep (sz : Nat) (d fp : String) (fs : List (String × Nat))
    (h : ∀ s, fsLookup fs (mergedCachePath d fp) = some s → s = 0) :
    runMergeStage true sz d fp fs =
      ⟨fsWrite fs (mergedCachePath d fp) sz, mergedCachePath d fp, true⟩ := by
  unfold runMergeStage cacheHit
  cases hl : fsLookup fs (mergedCachePath d fp) with
  | none => rfl
  | some s =>
    have hs0 := h s hl
    subst hs0
    rfl

theorem c2_amended (mergedDir fp : String) (fs : List (String × Nat)) (sz : Nat)
    (hsz : 0 < sz) :
    (fsLookup fs (mergedCachePath mergedDir fp) = none →
      (runMergeStage true sz mergedDir fp fs).mergeInvoked = true) ∧
    (runMergeStage true sz mergedDir fp
        (runMergeStage true sz mergedDir fp fs).fs).mergeInvoked = false ∧
    (runMergeStage true sz mergedDir fp
        (runMergeStage true sz mergedDir fp fs).fs).final_gguf =
      (runMergeStage true sz mergedDir fp fs).final_gguf ∧
    (∀ s, fsLookup fs (mergedCachePath mergedDir fp) = some s → 0 < s →
      (runMergeStage true sz mergedDir fp fs).mergeInvoked = false ∧
      (runMergeStage true sz mergedDir fp fs).fs = fs) := by
  have hafter : ∀ gs : List (String × Nat),
      fsLookup gs (mergedCachePath mergedDir fp) = some sz →
      runMergeStage true sz mergedDir fp gs = ⟨gs, mergedCachePath mergedDir fp, false⟩ :=
    fun gs hg => runMergeStage_hit true sz mergedDir fp gs sz hg hsz
  cases hl : fsLookup fs (mergedCachePath mergedDir fp) with
  | none =>
    have hmiss := runMergeStage_miss_keep sz mergedDir fp fs
      (fun s hs => by rw [hl] at hs; cases hs)
    have hhit2 := hafter (fsWrite fs (mergedCachePath mergedDir fp) sz) (fsLookup_fsWrite ..)
    refine ⟨fun _ => by rw [hmiss], ?_, ?_, (fun s hs => nomatch hs)⟩
    · rw [hmiss]
      show (runMergeStage true sz mergedDir fp
        (fsWrite fs (mergedCachePath mergedDir fp) sz)).mergeInvoked = false
      rw [hhit2]
    · rw [hmiss]
      show (runMergeStage true sz mergedDir fp
          (fsWrite fs (mergedCachePath mergedDir fp) sz)).final_gguf =
        mergedCachePath mergedDir fp
      rw [hhit2]
  | some s =>
    by_cases hs : 0 < s
    · have hhit := runMergeStage_hit true sz mergedDir fp fs s hl hs
      refine ⟨(fun hc => nomatch hc), ?_, ?_, fun s' hs' h0' => ?_⟩
      · rw [hhit]
        show (runMergeStage true sz mergedDir fp fs).mergeInvoked = false
        rw [hhit]
      · rw [hhit]
        show (runMergeStage true sz mergedDir fp fs).final_gguf = mergedCachePath mergedDir fp
        rw [hhit]
      · rw [hhit]
        exact ⟨rfl, rfl⟩
    · have hmiss := runMergeStage_miss_keep sz mergedDir fp fs
        (fun s' hs' => by rw [hl] at hs'; injection hs' with h'; omega)
      have hhit2 := hafter (fsWrite fs (mergedCachePath mergedDir fp) sz) (fsLookup_fsWrite ..)
      refine ⟨(fun hc => nomatch hc), ?_, ?_, fun s' hs' h0' => ?_⟩
      · rw [hmiss]
        show (runMergeStage true sz mergedDir fp
          (fsWrite fs (mergedCachePath mergedDir fp) sz)).mergeInvoked = false
        rw [hhit2]
      · rw [hmiss]
        show (runMergeStage true sz mergedDir fp
            (fsWrite fs (mergedCachePath mergedDir fp) sz)).final_gguf =
          mergedCachePath mergedDir fp
        rw [hhit2]
      · injection hs' with h'
        omega

/-- C2 amended, witness: empty cache, successful merge of one byte. -/
theorem c2_amended_witness :
    (0 : Nat) < 1 ∧
    (fsLookup [] (mergedCachePath "merged" "feedface") = none →
      (runMergeStage true 1 "merged" "feedface" []).mergeInvoked = true) ∧
    (runMergeStage true 1 "merged" "feedface"
        (runMergeStage true 1 "merged" "feedface" []).fs).mergeInvoked = false :=
  ⟨by decide, (c2_amended "merged" "feedface" [] 1 (by decide)).1,
   (c2_amended "merged" "feedface" [] 1 (by decide)).2.1⟩

/-! ### Theorems: merge failure conditions (C3) -/

/-- C3, counterexample: the code checks only that the output file exists,
not that it is non-empty — a tool run that exits zero and leaves an empty
(zero-byte) file at the destination is accepted and the destination path is
returned, although the claim requires a failure whenever no non-empty file
is left. -/
theorem c3_counterexample :
    merge_sharded_model ["a-00001-of-00002.gguf", "a-00002-of-00002.gguf"]
        ⟨0, "gguf_merge: done", true, 0⟩ "out/merged.gguf" = .ok "out/merged.gguf" ∧
    ¬ (0 < (ToolRun.mk 0 "gguf_merge: done" true 0).destSize) := ⟨rfl, by decide⟩

/-- C3, amended: given at least two shards, the merge step succeeds exactly
when the tool exits zero and some file (possibly empty) exists at the
destination, returning that path; a non-zero exit fails carrying the tool's
captured output, while a missing output file fails with a fixed diagnostic
that does not carry the output. -/
theorem c3_amended (shards : List String) (tool : ToolRun) (output_path : String)
    (hsh : 2 ≤ shards.length) :
    (merge_sharded_model shards tool output_path = .ok output_path ↔
      tool.exitCode = 0 ∧ tool.destExists = true) ∧
    (tool.exitCode ≠ 0 → merge_sharded_model shards tool output_path =
      .error (.mergeFailed
        ("Merge failed (exit " ++ toString tool.exitCode ++ ").\n" ++ tool.output))) ∧
    (tool.exitCode = 0 → tool.destExists = false → merge_sharded_model shards tool output_path =
      .error (.outputNotFound "Merge completed but output file not found.")) := by
  have hlt : ¬ (shards.length < 2) := by omega
  by_cases he : tool.exitCode = 0 <;> by_cases hd : tool.destExists <;>
    simp [merge_sharded_model, hlt, he, hd]

/-- C3 amended, witness at a concrete successful and failing run. -/
theorem c3_amended_witness :
    (2 ≤ (["s1", "s2"] : List String).length) ∧
    (merge_sharded_model ["s1", "s2"] ⟨0, "ok", true, 42⟩ "d" = .ok "d" ↔
      (0 : Int) = 0 ∧ true = true) ∧
    ((1 : Int) ≠ 0 → merge_sharded_model ["s1", "s2"] ⟨1, "boom", false, 0⟩ "d" =
      .error (.mergeFailed ("Merge failed (exit " ++ toString (1 : Int) ++ ").\n" ++ "boom"))) :=
  ⟨by decide, (c3_amended ["s1", "s2"] ⟨0, "ok", true, 42⟩ "d" (by decide)).1,
   (c3_amended ["s1", "s2"] ⟨1, "boom", false, 0⟩ "d" (by decide)).2.1⟩

/-! ### Theorems: shard detection (C4) -/

/-- C4, counterexample: the source's closed pattern set has a single
index-of-count digit width (five); a lone file using a four-digit zero-padded
index-of-count suffix matches no pattern and, with no qualifying siblings, is
reported as not split — the claim's "two digit widths" would make the
filename alone sufficient. -/
theorem c4_counterexample :
    matchesShardPattern "m-0001-of-0003.gguf" = false ∧
    is_sharded_model "m-0001-of-0003.gguf" ["m-0001-of-0003.gguf"] = false := by decide

/-- C4, amended: a filename matching any pattern of the closed set actually
registered — the five-digit zero-padded index-of-count suffix, or a partN
suffix in two spellings — is by itself sufficient for `is_sharded_model` to
report the artifact split, whatever the directory contents; a lone file whose
name matches no convention and has no qualifying siblings is not split. -/
theorem c4_amended :
    (∀ name dirListing, matchesShardPattern name = true →
      is_sharded_model name dirListing = true) ∧
    (∀ name, matchesShardPattern name = false → is_sharded_model name [name] = false) := by
  constructor
  · intro name dir h
    simp [is_sharded_model, h]
  · intro name h
    simp only [is_sharded_model, h, Bool.false_eq_true, if_false]
    cases hp : (globMatch (shardBase name) name && relatedFilter name) <;>
      simp [List.filter, hp]

/-- C4 amended, witness: a five-digit shard name is split on its own; a plain
lone file is not. -/
theorem c4_amended_witness :
    matchesShardPattern "model-00001-of-00003.gguf" = true ∧
    is_sharded_model "model-00001-of-00003.gguf" [] = true ∧
    matchesShardPattern "model.gguf" = false ∧
    is_sharded_model "model.gguf" ["model.gguf"] = false :=
  ⟨by decide, c4_amended.1 "model-00001-of-00003.gguf" [] (by decide), by decide,
   c4_amended.2 "model.gguf" (by decide)⟩

/-! ### Theorems: architecture classification (C5) -/

/-- C5, counterexample: the filename pass does not reuse the content
patterns — the string "nemotron.gguf" matches no content pattern (so as file
content it classifies to the default) yet matches the filename pass, which
has an extra nemotron check; so "the same patterns" fails on the code. -/
theorem c5_counterexample :
    contentMatchArch "nemotron.gguf" = none ∧
    filenameMatchArch "nemotron.gguf" = some "nemotron" ∧
    detect_architecture "nemotron.gguf" "model.gguf" = "llama3" ∧
    detect_architecture "" "nemotron.gguf" = "nemotron" := by decide

set_option maxHeartbeats 2000000 in
/-- C5, amended: classification applies priority order with first match
winning — a content match on the decoded byte prefix always beats any
filename match; on no content match a filename-specific ordered pattern list
is applied (the same families, but with an additional leading nemotron check
and looser patterns); when neither pass matches, the fixed default family
"llama3" is returned, so classification always yields a class. -/
theorem c5_amended (content name : String) :
    detect_architecture content name =
      (contentMatchArch (asciiLower content)).getD
        ((filenameMatchArch (asciiLower name)).getD "llama3") := by
  unfold detect_architecture contentMatchArch filenameMatchArch
  split_ifs <;> rfl

/-! ### String-prefix and list-insertion helper lemmas -/

theorem string_append_assoc (a b c : String) : a ++ b ++ c = a ++ (b ++ c) := by
  cases a; cases b; cases c
  exact congrArg String.mk (List.append_assoc _ _ _)

theorem isPrefixOf_append_false (pre lit t : List Char)
    (h1 : lit.isPrefixOf pre = false) (h2 : pre.isPrefixOf lit = false) :
    pre.isPrefixOf (lit ++ t) = false := by
  induction lit generalizing pre with
  | nil => simp [List.isPrefixOf] at h1
  | cons a as ih =>
    cases pre with
    | nil => simp [List.isPrefixOf] at h2
    | cons p ps =>
      rw [List.cons_append]
      show (p == a && ps.isPrefixOf (as ++ t)) = false
      by_cases hpa : p = a
      · subst hpa
        have h1' : as.isPrefixOf ps = false := by simpa [List.isPrefixOf] using h1
        have h2' : ps.isPrefixOf as = false := by simpa [List.isPrefixOf] using h2
        simpa using ih ps h1' h2'
      · have hb : (p == a) = false := by simpa using hpa
        simp [hb]

theorem strHasPre_self_append (pre t : String) : strHasPre pre (pre ++ t) = true := by
  unfold strHasPre
  rw [string_data_append]
  exact isPrefixOf_self_append _ _

theorem strHasPre_lit_append_false (pre lit t : String)
    (h1 : strHasPre lit pre = false) (h2 : strHasPre pre lit = false) :
    strHasPre pre (lit ++ t) = false := by
  unfold strHasPre at h1 h2 ⊢
  rw [string_data_append]
  exact isPrefixOf_append_false _ _ _ h1 h2

theorem lit_append_ne (lit t other : String) (h : strHasPre lit other = false) :
    lit ++ t ≠ other := by
  intro he
  have hp := strHasPre_self_append lit t
  rw [he, h] at hp
  cases hp

theorem mem_pyInsert (l : List String) (i : Nat) (x y : String) (h : x ∈ l) :
    x ∈ pyInsert l i y := by
  unfold pyInsert
  rw [← List.take_append_drop i l] at h
  rcases List.mem_append.mp h with h | h
  · exact List.mem_append.mpr (Or.inl h)
  · exact List.mem_append.mpr (Or.inr (List.mem_cons_of_mem _ h))

theorem all_pyInsert (p : String → Bool) (l : List String) (i : Nat) (y : String)
    (hy : p y = true) (hl : l.all p = true) : (pyInsert l i y).all p = true := by
  unfold pyInsert
  rw [← List.take_append_drop i l] at hl
  simp only [List.all_append, List.all_cons, Bool.and_eq_true] at hl ⊢
  exact ⟨hl.1, hy, hl.2⟩

/-- `list.insert(list.index(x), y)` puts `y` immediately before the first
occurrence of `x`. -/
theorem pyInsert_adjacent (l : List String) (x y : String) (hx : x ∈ l) :
    ∃ i, (pyInsert l (pyIndex l x) y)[i]? = some y ∧
         (pyInsert l (pyIndex l x) y)[i + 1]? = some x := by
  induction l with
  | nil => cases hx
  | cons a rest ih =>
    by_cases ha : a = x
    · subst ha
      exact ⟨0, by simp [pyIndex, pyInsert], by simp [pyIndex, pyInsert]⟩
    · have hx' : x ∈ rest := by
        cases hx with
        | head => exact absurd rfl ha
        | tail _ h => exact h
      obtain ⟨i, h1, h2⟩ := ih hx'
      have hstep : pyInsert (a :: rest) (pyIndex (a :: rest) x) y =
          a :: pyInsert rest (pyIndex rest x) y := by
        simp [pyInsert, pyIndex, ha, List.take_succ_cons, List.drop_succ_cons]
      rw [hstep]
      exact ⟨i + 1, by simpa using h1, by simpa using h2⟩

theorem pyIndex_append (L B : List String) (x : String) (hx : x ∉ L) :
    pyIndex (L ++ B) x = L.length + pyIndex B x := by
  induction L with
  | nil => simp [pyIndex]
  | cons a t ih =>
    have ha : ¬ a = x := fun he => hx (he ▸ List.mem_cons_self a t)
    have ht : x ∉ t := fun hm => hx (List.mem_cons_of_mem a hm)
    rw [List.cons_append]
    show (if a = x then 0 else pyIndex (t ++ B) x + 1) = (a :: t).length + pyIndex B x
    rw [if_neg ha, ih ht]
    simp [List.length_cons]
    omega

theorem pyInsert_append_left (L B : List String) (k : Nat) (y : String) :
    pyInsert (L ++ B) (L.length + k) y = L ++ pyInsert B k y := by
  induction L with
  | nil => simp [pyInsert]
  | cons a t ih =>
    have hlen : (a :: t).length + k = (t.length + k) + 1 := by
      simp [List.length_cons]
      omega
    rw [List.cons_append, hlen]
    unfold pyInsert
    rw [List.take_succ_cons, List.drop_succ_cons, List.cons_append]
    unfold pyInsert at ih
    rw [ih, List.cons_append]

/-! ### Shapes of the generated configuration lines -/

theorem outHead_mem (path arch : String) (mt : ModelTemplate) (l : String)
    (hl : l ∈ outHead path arch mt) :
    l = "# Auto-generated Modelfile with Tool capability for GitHub Copilot" ∨
    l = "# Architecture: " ++ arch ∨ l = "" ∨ l = "FROM " ++ path ∨
    (∃ r, l = "RENDERER " ++ r) ∨ (∃ p, l = "PARSER " ++ p) ∨
    l = "# Template" ∨ (∃ t, l = templateLine t) ∨ l = "# Stop sequences" := by
  unfold outHead at hl
  rcases hre : mt.renderer with _ | r <;> rcases hpa : mt.parser with _ | p <;>
    rw [hre, hpa] at hl <;> simp at hl <;> aesop

theorem outTail_mem (arch temp : String) (sys : Option String) (l : String)
    (hl : l ∈ outTail arch temp sys) :
    l = "" ∨ l = "# Model parameters" ∨ l = "PARAMETER temperature " ++ temp ∨
    l = numPredictLine ∨
    (arch ≠ "nemotron" ∧ l = "# System message") ∨
    (arch ≠ "nemotron" ∧ l = systemLine (pyOrDefault sys)) := by
  unfold outTail at hl
  by_cases harch : arch = "nemotron"
  · subst harch
    simp at hl
    tauto
  · rw [if_pos harch] at hl
    simp at hl
    aesop

theorem outBase_mem_split (path arch : String) (mt : ModelTemplate) (temp : String)
    (stop : List String) (sys : Option String) (l : String)
    (hl : l ∈ outBase path arch mt temp stop sys) :
    l ∈ outHead path arch mt ∨ l ∈ stop.map stopLine ∨ l ∈ outTail arch temp sys := by
  simpa [outBase, List.mem_append, or_assoc] using hl

theorem outBase_no_numctx (path arch : String) (mt : ModelTemplate) (temp : String)
    (stop : List String) (sys : Option String) :
    (outBase path arch mt temp stop sys).all
      (fun l => !(strHasPre "PARAMETER num_ctx" l)) = true := by
  rw [List.all_eq_true]
  intro l hl
  suffices h : strHasPre "PARAMETER num_ctx" l = false by simp [h]
  rcases outBase_mem_split path arch mt temp stop sys l hl with hl | hl | hl
  · rcases outHead_mem path arch mt l hl with
      rfl | rfl | rfl | rfl | ⟨r, rfl⟩ | ⟨p, rfl⟩ | rfl | ⟨t, rfl⟩ | rfl
    · decide
    · exact strHasPre_lit_append_false _ _ _ (by decide) (by decide)
    · decide
    · exact strHasPre_lit_append_false _ _ _ (by decide) (by decide)
    · exact strHasPre_lit_append_false _ _ _ (by decide) (by decide)
    · exact strHasPre_lit_append_false _ _ _ (by decide) (by decide)
    · decide
    · unfold templateLine
      rw [string_append_assoc]
      exact strHasPre_lit_append_false _ _ _ (by decide) (by decide)
    · decide
  · obtain ⟨s, -, rfl⟩ := List.mem_map.mp hl
    unfold stopLine
    rw [string_append_assoc]
    exact strHasPre_lit_append_false _ _ _ (by decide) (by decide)
  · rcases outTail_mem arch temp sys l hl with
      rfl | rfl | rfl | rfl | ⟨-, rfl⟩ | ⟨-, rfl⟩
    · decide
    · decide
    · exact strHasPre_lit_append_false _ _ _ (by decide) (by decide)
    · decide
    · decide
    · unfold systemLine
      rw [string_append_assoc]
      exact strHasPre_lit_append_false _ _ _ (by decide) (by decide)

theorem outBase_nemotron_no_system (path temp : String) (mt : ModelTemplate)
    (stop : List String) (sys : Option String) :
    (outBase path "nemotron" mt temp stop sys).all
      (fun l => !(strHasPre "SYSTEM" l)) = true := by
  rw [List.all_eq_true]
  intro l hl
  suffices h : strHasPre "SYSTEM" l = false by simp [h]
  rcases outBase_mem_split path "nemotron" mt temp stop sys l hl with hl | hl | hl
  · rcases outHead_mem path "nemotron" mt l hl with
      rfl | rfl | rfl | rfl | ⟨r, rfl⟩ | ⟨p, rfl⟩ | rfl | ⟨t, rfl⟩ | rfl
    · decide
    · decide
    · decide
    · exact strHasPre_lit_append_false _ _ _ (by decide) (by decide)
    · exact strHasPre_lit_append_false _ _ _ (by decide) (by decide)
    · exact strHasPre_lit_append_false _ _ _ (by decide) (by decide)
    · decide
    · unfold templateLine
      rw [string_append_assoc]
      exact strHasPre_lit_append_false _ _ _ (by decide) (by decide)
    · decide
  · obtain ⟨s, -, rfl⟩ := List.mem_map.mp hl
    unfold stopLine
    rw [string_append_assoc]
    exact strHasPre_lit_append_false _ _ _ (by decide) (by decide)
  · rcases outTail_mem "nemotron" temp sys l hl with
      rfl | rfl | rfl | rfl | ⟨hne, rfl⟩ | ⟨hne, rfl⟩
    · decide
    · decide
    · exact strHasPre_lit_append_false _ _ _ (by decide) (by decide)
    · decide
    · exact absurd rfl hne
    · exact absurd rfl hne

theorem numPredict_mem_outBase (path arch : String) (mt : ModelTemplate) (temp : String)
    (stop : List String) (sys : Option String) :
    numPredictLine ∈ outBase path arch mt temp stop sys := by
  unfold outBase outTail
  simp

theorem numPredict_not_mem_head (path arch : String) (mt : ModelTemplate)
    (stop : List String) :
    numPredictLine ∉ outHead path arch mt ++ stop.map stopLine := by
  intro hmem
  rcases List.mem_append.mp hmem with h | h
  · rcases outHead_mem path arch mt _ h with
      h | h | h | h | ⟨r, h⟩ | ⟨p, h⟩ | h | ⟨t, h⟩ | h
    · exact absurd h (by decide)
    · exact (lit_append_ne _ _ _ (by decide)) h.symm
    · exact absurd h (by decide)
    · exact (lit_append_ne _ _ _ (by decide)) h.symm
    · exact (lit_append_ne _ _ _ (by decide)) h.symm
    · exact (lit_append_ne _ _ _ (by decide)) h.symm
    · exact absurd h (by decide)
    · unfold templateLine at h
      rw [string_append_assoc] at h
      exact (lit_append_ne _ _ _ (by decide)) h.symm
    · exact absurd h (by decide)
  · obtain ⟨s, -, h⟩ := List.mem_map.mp h
    unfold stopLine at h
    rw [string_append_assoc] at h
    exact (lit_append_ne _ _ _ (by decide)) h

/-! ### Evaluation lemmas for `generate_modelfileLines` -/

theorem genLines_none (path arch temp : String) (extra : Option (List String))
    (sys : Option String) (mt : ModelTemplate)
    (hmt : List.lookup arch _TEMPLATES = some mt) :
    generate_modelfileLines path arch none temp extra sys =
      .ok (outBase path arch mt temp (stopList mt extra) sys) := by
  unfold generate_modelfileLines
  rw [hmt]

theorem genLines_pos (path arch temp : String) (extra : Option (List String))
    (sys : Option String) (mt : ModelTemplate) (n : Int)
    (hmt : List.lookup arch _TEMPLATES = some mt) (hn : 0 < n) :
    generate_modelfileLines path arch (some n) temp extra sys =
      .ok (pyInsert (outBase path arch mt temp (stopList mt extra) sys)
        (pyIndex (outBase path arch mt temp (stopList mt extra) sys) numPredictLine)
        (numCtxLine n)) := by
  unfold generate_modelfileLines
  rw [hmt]
  have hng : ¬ n ≤ 0 := by omega
  simp [hng]

/-! ### Theorems: context-length directive (C6) -/

/-- C6: a present non-positive context length fails with InvalidConfiguration;
an omitted one emits no `num_ctx` directive anywhere in the configuration; a
positive one emits `PARAMETER num_ctx n` immediately before the fixed
`PARAMETER num_predict -1` line. -/
theorem c6 (path arch temp : String) (extra : Option (List String)) (sys : Option String)
    (mt : ModelTemplate) (hmt : List.lookup arch _TEMPLATES = some mt) :
    (∀ n : Int, n ≤ 0 → generate_modelfileLines path arch (some n) temp extra sys =
      .error (.invalidConfiguration "context_length must be a positive integer")) ∧
    ((okLines (generate_modelfileLines path arch none temp extra sys)).all
      (fun l => !(strHasPre "PARAMETER num_ctx" l)) = true) ∧
    (∀ n : Int, 0 < n →
      ∃ i, (okLines (generate_modelfileLines path arch (some n) temp extra sys))[i]? =
              some (numCtxLine n) ∧
           (okLines (generate_modelfileLines path arch (some n) temp extra sys))[i + 1]? =
              some numPredictLine) := by
  refine ⟨fun n hn => ?_, ?_, fun n hn => ?_⟩
  · unfold generate_modelfileLines
    rw [hmt]
    simp [hn]
  · rw [genLines_none path arch temp extra sys mt hmt]
    exact outBase_no_numctx path arch mt temp (stopList mt extra) sys
  · rw [genLines_pos path arch temp extra sys mt n hmt hn]
    exact pyInsert_adjacent _ numPredictLine (numCtxLine n)
      (numPredict_mem_outBase path arch mt temp (stopList mt extra) sys)

/-- C6, witness: the three branches at concrete inputs for llama3. -/
theorem c6_witness :
    ((0 : Int) ≤ 0) ∧
    (generate_modelfileLines "/m.gguf" "llama3" (some 0) "0.7" none none =
      .error (.invalidConfiguration "context_length must be a positive integer")) ∧
    ((okLines (generate_modelfileLines "/m.gguf" "llama3" none "0.7" none none)).all
      (fun l => !(strHasPre "PARAMETER num_ctx" l)) = true) ∧
    ((0 : Int) < 4096) ∧
    (∃ i, (okLines (generate_modelfileLines "/m.gguf" "llama3" (some 4096) "0.7" none none))[i]? =
            some (numCtxLine 4096) ∧
          (okLines (generate_modelfileLines "/m.gguf" "llama3" (some 4096) "0.7" none none))[i + 1]? =
            some numPredictLine) :=
  ⟨by decide,
   (c6 "/m.gguf" "llama3" "0.7" none none llama3Template rfl).1 0 (by decide),
   (c6 "/m.gguf" "llama3" "0.7" none none llama3Template rfl).2.1,
   by decide,
   (c6 "/m.gguf" "llama3" "0.7" none none llama3Template rfl).2.2 4096 (by decide)⟩

/-! ### Theorems: stop-token list (C7) -/

/-- First-seen-order deduplication against an already-seen set; written from
the spec's wording "ordered, de-duplicated, first-seen order" to compare with
the source's fold. -/
def dedupSeen (seen : List String) : List String → List String
  | [] => []
  | s :: rest => if s ∈ seen then dedupSeen seen rest else s :: dedupSeen (s :: seen) rest

theorem dedupSeen_congr (s1 s2 : List String) (l : List String)
    (h : ∀ x, x ∈ s1 ↔ x ∈ s2) : dedupSeen s1 l = dedupSeen s2 l := by
  induction l generalizing s1 s2 with
  | nil => rfl
  | cons a t ih =>
    unfold dedupSeen
    by_cases ha : a ∈ s1
    · rw [if_pos ha, if_pos ((h a).mp ha)]
      exact ih s1 s2 h
    · rw [if_neg ha, if_neg (fun hc => ha ((h a).mpr hc))]
      rw [ih (a :: s1) (a :: s2) (fun x => by simp [List.mem_cons, h x])]

theorem stop_foldl_eq (extras : List String) : ∀ acc : List String,
    extras.foldl (fun acc s => if s ∈ acc then acc else acc ++ [s]) acc =
      acc ++ dedupSeen acc extras := by
  induction extras with
  | nil => intro acc; simp [dedupSeen]
  | cons a t ih =>
    intro acc
    rw [List.foldl_cons]
    by_cases ha : a ∈ acc
    · rw [if_pos ha, ih acc]
      simp only [dedupSeen, if_pos ha]
    · rw [if_neg ha, ih (acc ++ [a])]
      simp only [dedupSeen, if_neg ha]
      rw [dedupSeen_congr (acc ++ [a]) (a :: acc) t
        (fun x => by simp [List.mem_append, List.mem_cons, or_comm])]
      simp [List.append_assoc]

/-- C7: the stop-token list is the family defaults in registered order,
followed by the caller's extra tokens in first-seen order with any token
already present suppressed; the emitted configuration carries exactly these
tokens as a contiguous block of stop lines, in this order. -/
theorem c7 (path arch temp : String) (sys : Option String) (ctx : Option Int)
    (mt : ModelTemplate) (extras : List String)
    (hmt : List.lookup arch _TEMPLATES = some mt) (hok : ∀ n, ctx = some n → 0 < n) :
    stopList mt (some extras) = mt.stop ++ dedupSeen mt.stop extras ∧
    (∃ pre suf, okLines (generate_modelfileLines path arch ctx temp (some extras) sys) =
      pre ++ (mt.stop ++ dedupSeen mt.stop extras).map stopLine ++ suf) := by
  have hstop : stopList mt (some extras) = mt.stop ++ dedupSeen mt.stop extras := by
    by_cases hx : extras = []
    · subst hx
      simp [stopList, dedupSeen]
    · show (if extras = [] then mt.stop
        else extras.foldl (fun acc s => if s ∈ acc then acc else acc ++ [s]) mt.stop) =
          mt.stop ++ dedupSeen mt.stop extras
      rw [if_neg hx, stop_foldl_eq]
  refine ⟨hstop, ?_⟩
  cases ctx with
  | none =>
    rw [genLines_none path arch temp (some extras) sys mt hmt]
    refine ⟨outHead path arch mt, outTail arch temp sys, ?_⟩
    show outBase path arch mt temp (stopList mt (some extras)) sys = _
    unfold outBase
    rw [hstop]
  | some n =>
    have hn := hok n rfl
    rw [genLines_pos path arch temp (some extras) sys mt n hmt hn]
    refine ⟨outHead path arch mt,
      pyInsert (outTail arch temp sys) (pyIndex (outTail arch temp sys) numPredictLine)
        (numCtxLine n), ?_⟩
    show pyInsert (outBase path arch mt temp (stopList mt (some extras)) sys)
        (pyIndex (outBase path arch mt temp (stopList mt (some extras)) sys) numPredictLine)
        (numCtxLine n) = _
    unfold outBase
    rw [hstop]
    rw [pyIndex_append (outHead path arch mt ++ (mt.stop ++ dedupSeen mt.stop extras).map stopLine)
      (outTail arch temp sys) numPredictLine
      (numPredict_not_mem_head path arch mt (mt.stop ++ dedupSeen mt.stop extras))]
    rw [pyInsert_append_left]

/-- C7, witness: llama3 with one duplicate and one fresh extra token. -/
theorem c7_witness :
    stopList llama3Template (some ["<|eot_id|>", "<|custom|>", "<|custom|>"]) =
      llama3Template.stop ++
        dedupSeen llama3Template.stop ["<|eot_id|>", "<|custom|>", "<|custom|>"] ∧
    (∃ pre suf,
      okLines (generate_modelfileLines "/m.gguf" "llama3" none "0.7"
          (some ["<|eot_id|>", "<|custom|>", "<|custom|>"]) none) =
        pre ++ (llama3Template.stop ++
          dedupSeen llama3Template.stop ["<|eot_id|>", "<|custom|>", "<|custom|>"]).map stopLine
          ++ suf) :=
  c7 "/m.gguf" "llama3" "0.7" none none llama3Template
    ["<|eot_id|>", "<|custom|>", "<|custom|>"] rfl (fun n h => by cases h)

/-- The dedup result on the witness inputs, checked concretely: the duplicate
default is suppressed and the fresh token kept once. -/
theorem c7_witness_eval :
    dedupSeen llama3Template.stop ["<|eot_id|>", "<|custom|>", "<|custom|>"] =
      ["<|custom|>"] := by decide

/-! ### Theorems: template-inert family (C8) -/

/-- C8: for nemotron the configuration carries RENDERER and PARSER directives,
no SYSTEM line at all (whatever system message the caller supplies), and its
registered template references neither the tools nor the system field; for
every other registered family a SYSTEM line is emitted, carrying the caller's
message when given (non-empty) and the family default otherwise. -/
theorem c8 (path temp : String) (extra : Option (List String)) (sys : Option String)
    (ctx : Option Int) (hok : ∀ n, ctx = some n → 0 < n) :
    "RENDERER nemotron-3-nano" ∈
      okLines (generate_modelfileLines path "nemotron" ctx temp extra sys) ∧
    "PARSER nemotron-3-nano" ∈
      okLines (generate_modelfileLines path "nemotron" ctx temp extra sys) ∧
    ((okLines (generate_modelfileLines path "nemotron" ctx temp extra sys)).all
      (fun l => !(strHasPre "SYSTEM" l)) = true) ∧
    containsLit ".Tools" nemotronTemplate.template = false ∧
    containsLit ".System" nemotronTemplate.template = false ∧
    (∀ arch mt, List.lookup arch _TEMPLATES = some mt → arch ≠ "nemotron" →
      systemLine (pyOrDefault sys) ∈
        okLines (generate_modelfileLines path arch ctx temp extra sys) ∧
      (∀ s, sys = some s → s ≠ "" → pyOrDefault sys = s) ∧
      (sys = none → pyOrDefault sys = _SYSTEM_MESSAGE)) := by
  have hnem : List.lookup "nemotron" _TEMPLATES = some nemotronTemplate := rfl
  have hrend : "RENDERER nemotron-3-nano" ∈ outHead path "nemotron" nemotronTemplate := by
    unfold outHead
    simp [nemotronTemplate]
  have hpars : "PARSER nemotron-3-nano" ∈ outHead path "nemotron" nemotronTemplate := by
    unfold outHead
    simp [nemotronTemplate]
  have hbase : ∀ l ∈ outHead path "nemotron" nemotronTemplate,
      l ∈ outBase path "nemotron" nemotronTemplate temp (stopList nemotronTemplate extra) sys := by
    intro l hl
    unfold outBase
    exact List.mem_append.mpr (Or.inl (List.mem_append.mpr (Or.inl hl)))
  have hsysline : ∀ arch mt, arch ≠ "nemotron" →
      systemLine (pyOrDefault sys) ∈ outBase path arch mt temp (stopList mt extra) sys := by
    intro arch mt hne
    have h1 : systemLine (pyOrDefault sys) ∈ outTail arch temp sys := by
      unfold outTail
      rw [if_pos hne]
      simp
    unfold outBase
    exact List.mem_append.mpr (Or.inr h1)
  have hpy : (∀ s, sys = some s → s ≠ "" → pyOrDefault sys = s) ∧
      (sys = none → pyOrDefault sys = _SYSTEM_MESSAGE) := by
    constructor
    · intro s hs hne
      subst hs
      show (if s = "" then _SYSTEM_MESSAGE else s) = s
      rw [if_neg hne]
    · intro hs
      subst hs
      rfl
  have hnumctx : ∀ n : Int, (!(strHasPre "SYSTEM" (numCtxLine n))) = true := by
    intro n
    have : strHasPre "SYSTEM" (numCtxLine n) = false :=
      strHasPre_lit_append_false _ _ _ (by decide) (by decide)
    simp [this]
  cases ctx with
  | none =>
    rw [genLines_none path "nemotron" temp extra sys nemotronTemplate hnem]
    refine ⟨hbase _ hrend, hbase _ hpars, ?_, by decide, by decide, fun arch mt hmt hne => ?_⟩
    · exact outBase_nemotron_no_system path temp nemotronTemplate (stopList nemotronTemplate extra) sys
    · rw [genLines_none path arch temp extra sys mt hmt]
      exact ⟨hsysline arch mt hne, hpy.1, hpy.2⟩
  | some n =>
    have hn := hok n rfl
    rw [genLines_pos path "nemotron" temp extra sys nemotronTemplate n hnem hn]
    refine ⟨mem_pyInsert _ _ _ _ (hbase _ hrend), mem_pyInsert _ _ _ _ (hbase _ hpars), ?_,
      by decide, by decide, fun arch mt hmt hne => ?_⟩
    · exact all_pyInsert _ _ _ _ (hnumctx n)
        (outBase_nemotron_no_system path temp nemotronTemplate (stopList nemotronTemplate extra) sys)
    · rw [genLines_pos path arch temp extra sys mt n hmt hn]
      exact ⟨mem_pyInsert _ _ _ _ (hsysline arch mt hne), hpy.1, hpy.2⟩

/-- C8, witness: nemotron with a caller-supplied message, and mistral both
with and without one. -/
theorem c8_witness :
    "RENDERER nemotron-3-nano" ∈
      okLines (generate_modelfileLines "/m.gguf" "nemotron" none "0.7" none (some "custom")) ∧
    ((okLines (generate_modelfileLines "/m.gguf" "nemotron" none "0.7" none (some "custom"))).all
      (fun l => !(strHasPre "SYSTEM" l)) = true) ∧
    systemLine (pyOrDefault (some "custom")) ∈
      okLines (generate_modelfileLines "/m.gguf" "mistral" none "0.7" none (some "custom")) ∧
    pyOrDefault (some "custom") = "custom" :=
  ⟨(c8 "/m.gguf" "0.7" none (some "custom") none (fun n h => by cases h)).1,
   (c8 "/m.gguf" "0.7" none (some "custom") none (fun n h => by cases h)).2.2.1,
   ((c8 "/m.gguf" "0.7" none (some "custom") none (fun n h => by cases h)).2.2.2.2.2
     "mistral" mistralTemplate rfl (by decide)).1,
   ((c8 "/m.gguf" "0.7" none (some "custom") none (fun n h => by cases h)).2.2.2.2.2
     "mistral" mistralTemplate rfl (by decide)).2.1 "custom" rfl (by decide)⟩

/-! ### Theorems: unsupported architecture (C9) -/

/-- C9: requesting a class outside the registry fails with
UnsupportedArchitecture whose message lists exactly the registered classes
(sorted); requesting a registered class never raises that error. -/
theorem c9 (path arch temp : String) (ctx : Option Int) (extra : Option (List String))
    (sys : Option String) :
    (List.lookup arch _TEMPLATES = none →
      generate_modelfileLines path arch ctx temp extra sys =
        .error (.unsupportedArchitecture ("Unsupported architecture: " ++ arch ++
          ". Supported: " ++ String.intercalate ", " supported_architectures))) ∧
    supported_architectures = ["gemma2", "llama3", "mistral", "nemotron", "phi3", "qwen"] ∧
    (_TEMPLATES.map Prod.fst).Perm supported_architectures ∧
    (List.lookup arch _TEMPLATES ≠ none →
      ∀ msg, generate_modelfileLines path arch ctx temp extra sys ≠
        .error (.unsupportedArchitecture msg)) := by
  refine ⟨fun h => ?_, by decide, (List.perm_insertionSort _ _).symm, fun hne msg => ?_⟩
  · unfold generate_modelfileLines
    rw [h]
  · obtain ⟨mt, hmt⟩ := Option.ne_none_iff_exists'.mp hne
    unfold generate_modelfileLines
    rw [hmt]
    cases ctx with
    | none => simp
    | some n =>
      by_cases hn : n ≤ 0 <;> simp [hn]

/-- C9, witness: an unregistered and a registered class at concrete inputs. -/
theorem c9_witness :
    (List.lookup "falcon" _TEMPLATES = none) ∧
    (generate_modelfileLines "/m.gguf" "falcon" none "0.7" none none =
      .error (.unsupportedArchitecture ("Unsupported architecture: " ++ "falcon" ++
        ". Supported: " ++ String.intercalate ", " supported_architectures))) ∧
    (List.lookup "qwen" _TEMPLATES ≠ none) ∧
    (generate_modelfileLines "/m.gguf" "qwen" none "0.7" none none ≠
      .error (.unsupportedArchitecture "anything")) :=
  ⟨rfl,
   (c9 "/m.gguf" "falcon" "0.7" none none none).1 rfl,
   by decide,
   (c9 "/m.gguf" "qwen" "0.7" none none none).2.2.2 (by decide) "anything"⟩

/-! ### Theorems: parser totality (C10) -/

theorem all_dropWhile_iff (p : Char → Bool) (l : List Char) :
    (l.dropWhile p).all p = l.all p := by
  induction l with
  | nil => rfl
  | cons a t ih =>
    by_cases hp : p a
    · simp [List.dropWhile_cons, List.all_cons, hp, ih]
    · simp [List.dropWhile_cons, List.all_cons, hp]

theorem all_pyStrip_iff (s : String) :
    (pyStrip s).data.all isPySpace = s.data.all isPySpace := by
  unfold pyStrip
  show (((s.data.dropWhile isPySpace).reverse.dropWhile isPySpace).reverse).all isPySpace = _
  rw [List.all_reverse, all_dropWhile_iff, List.all_reverse, all_dropWhile_iff]

theorem wordsAux_eq_nil_iff (l : List Char) : ∀ cur : List Char,
    (wordsAux cur l = [] ↔ (cur = [] ∧ l.all isPySpace = true)) := by
  induction l with
  | nil =>
    intro cur
    unfold wordsAux
    by_cases hc : cur = [] <;> simp [hc]
  | cons c t ih =>
    intro cur
    unfold wordsAux
    by_cases hw : isPySpace c
    · by_cases hc : cur = []
      · simp [hw, hc, ih, List.all_cons]
      · simp [hw, hc, List.all_cons]
    · simp [hw, ih, List.all_cons]

theorem pySplit_eq_nil_iff (s : String) :
    pySplit s = [] ↔ s.data.all isPySpace = true := by
  unfold pySplit
  rw [List.map_eq_nil_iff, wordsAux_eq_nil_iff]
  simp

theorem dropWhile_head_false (p : Char → Bool) (l : List Char) (c : Char) (t : List Char)
    (h : l.dropWhile p = c :: t) : p c = false := by
  induction l with
  | nil => simp [List.dropWhile] at h
  | cons a l ih =>
    by_cases hp : p a
    · rw [List.dropWhile_cons, if_pos hp] at h
      exact ih h
    · rw [List.dropWhile_cons, if_neg hp] at h
      cases h
      simpa using hp

theorem matchOllama_some_not_ws (s r : String) (h : matchOllamaRunPull s = some r) :
    r.data.all isPySpace = false := by
  unfold matchOllamaRunPull at h
  rw [Option.bind_eq_some] at h
  obtain ⟨r1, -, h⟩ := h
  rw [Option.bind_eq_some] at h
  obtain ⟨r2, -, h⟩ := h
  rw [Option.bind_eq_some] at h
  obtain ⟨r3, -, h⟩ := h
  rw [Option.bind_eq_some] at h
  obtain ⟨rest, h4, h⟩ := h
  have hrest : rest = r3.dropWhile isPySpace := by
    by_cases hc : r3.takeWhile isPySpace = []
    · rw [if_pos hc] at h4
      cases h4
    · rw [if_neg hc] at h4
      injection h4 with h4
      exact h4.symm
  have hr : r = List.asString rest ∧ (rest = [] || rest.contains '\n') = false := by
    by_cases hg : (rest = [] || rest.contains '\n') = true
    · rw [if_pos hg] at h
      cases h
    · rw [if_neg hg] at h
      injection h with h
      exact ⟨h.symm, by simpa using hg⟩
  obtain ⟨hrr, hg⟩ := hr
  have hne : rest ≠ [] := by
    intro h0
    rw [h0] at hg
    simp at hg
  cases hrest2 : rest with
  | nil => exact absurd hrest2 hne
  | cons c t =>
    have hc : isPySpace c = false := by
      apply dropWhile_head_false isPySpace r3 c t
      rw [← hrest]
      exact hrest2
    rw [hrr, hrest2]
    show (c :: t).all isPySpace = false
    simp [List.all_cons, hc]

theorem dropPreCI_ws_none (ps : List Char) (c : Char) (cs : List Char)
    (hc : isPySpace c = true) : dropPreCI ('o' :: ps) (c :: cs) = none := by
  have hlc : ¬ lowerChar c = 'o' := by
    unfold isPySpace at hc
    simp only [Bool.or_eq_true, decide_eq_true_eq] at hc
    rcases hc with ((((rfl | rfl) | rfl) | rfl) | rfl) | rfl <;> decide
  unfold dropPreCI
  simp [hlc]

theorem matchOllama_ws_none (s0 : String) (h : s0.data.all isPySpace = true) :
    matchOllamaRunPull s0 = none := by
  unfold matchOllamaRunPull
  cases hd : s0.data with
  | nil => rfl
  | cons c t =>
    have hc : isPySpace c = true := by
      rw [hd] at h
      simp [List.all_cons] at h
      exact h.1
    have hnone : dropPreCI "ollama".data (c :: t) = none := dropPreCI_ws_none "llama".data c t hc
    rw [hnone]
    rfl

theorem stripRunPull_not_ws (s0 : String) (h : s0.data.all isPySpace = false) :
    (stripRunPull s0).data.all isPySpace = false := by
  unfold stripRunPull
  cases hm : matchOllamaRunPull s0 with
  | none => exact h
  | some rest =>
    rw [all_pyStrip_iff]
    exact matchOllama_some_not_ws _ _ hm

/-- C10: `parse_model_source` is not total — an empty or all-whitespace
input reaches `s.split()[0]` with an empty list and raises (modelled as
`none`); every input with at least one non-whitespace character returns a
`ParsedSource`. -/
theorem c10 (s : String) :
    (s.data.all isPySpace = true → parse_model_source s = none) ∧
    (s.data.all isPySpace = false → (parse_model_source s).isSome = true) := by
  constructor
  · intro hws
    unfold parse_model_source
    have h0 : (pyStrip s).data.all isPySpace = true := by
      rw [all_pyStrip_iff]
      exact hws
    have hsrp : stripRunPull (pyStrip s) = pyStrip s := by
      unfold stripRunPull
      rw [matchOllama_ws_none _ h0]
    rw [hsrp, (pySplit_eq_nil_iff _).mpr h0]
    rfl
  · intro hws
    unfold parse_model_source
    have h0 : (stripRunPull (pyStrip s)).data.all isPySpace = false :=
      stripRunPull_not_ws _ (by rw [all_pyStrip_iff]; exact hws)
    cases hhd : (pySplit (stripRunPull (pyStrip s))).head? with
    | none =>
      have hnil : pySplit (stripRunPull (pyStrip s)) = [] := by
        cases hsp : pySplit (stripRunPull (pyStrip s)) with
        | nil => rfl
        | cons a t =>
          rw [hsp] at hhd
          cases hhd
      rw [(pySplit_eq_nil_iff _).mp hnil] at h0
      cases h0
    | some token => rfl

/-- C10, witness: whitespace-only input raises; "abc" parses. -/
theorem c10_witness :
    ((" " : String).data.all isPySpace = true) ∧
    parse_model_source " " = none ∧
    (("abc" : String).data.all isPySpace = false) ∧
    (parse_model_source "abc").isSome = true :=
  ⟨by decide, (c10 " ").1 (by decide), by decide, (c10 "abc").2 (by decide)⟩

end OllamaCopilotFixer
